import Mathlib

/-!
Verification of the accessibility-tree cursor engine of
`@guidepup/virtual-screen-reader` (shallow embedding of `src/Virtual.ts`,
`src/getNodeAccessibilityData/index.ts` and the hidden-node classifier).

Modelling conventions:
* DOM node references are modelled as natural-number identities (`Nat`);
  reference equality (`===`) becomes equality of identities.
* Machine state of the `Virtual` class (`#activeNode`, `#container`,
  `#itemTextLog`, `#spokenPhraseLog`) is the record `VirtualState`.
* The accessibility-tree synthesis (`createAccessibilityTree` + `flattenTree`,
  whose sources are not part of the provided tree) is abstracted: a `Doc`
  carries the flattened accessibility tree the synthesis would produce for
  the stable document, together with the document's `aria-modal` attribute
  lookup. Per spec §4.4 the phrase renderer (`getSpokenPhrase`/`getItemText`)
  is a deterministic pure function of the node's fields, so its two outputs
  are carried as fields of the node.
* JavaScript array quirks are modelled exactly: `Array.prototype.findIndex`
  returns `-1` when no element matches, and `Array.prototype.at` accepts
  negative indices counting from the end of the array.
-/

/-- One entry of the flattened accessibility tree (`AccessibilityNode` from
`createAccessibilityTree`, after `flattenTree`). `node` and `parentDialog`
are DOM references modelled as identities; `spokenPhrase`/`itemText` are the
deterministic outputs of `getSpokenPhrase`/`getItemText` on this node
(spec §4.4: "Both are deterministic given the node's fields"). -/
structure AccessibilityNode where
  node : Nat
  role : String
  spokenRole : String
  accessibleName : String
  accessibleDescription : String
  accessibleValue : String
  parentDialog : Option Nat
  spokenPhrase : String
  itemText : String
deriving DecidableEq, Repr

/-- The stable host document, seen through the synthesis collaborators:
`tree` is the flattened accessibility tree (`#getAccessibilityTree`), and
`ariaModal d` models `d.getAttribute("aria-modal") === "true"` for the DOM
element with identity `d`. -/
structure Doc where
  tree : List AccessibilityNode
  ariaModal : Nat → Bool

/-- The mutable fields of the `Virtual` class instance. -/
structure VirtualState where
  activeNode : Option AccessibilityNode
  container : Option Nat
  itemTextLog : List String
  spokenPhraseLog : List String
deriving DecidableEq, Repr

/-- Errors of §7: `ERR_VIRTUAL_NOT_STARTED` and
`ERR_VIRTUAL_MISSING_CONTAINER`. -/
inductive VError where
  | notStarted
  | missingContainer
deriving DecidableEq, Repr

/-- JavaScript `Array.prototype.findIndex`: index of the first element
satisfying `p`, and `-1` if there is none. -/
def findIndexJS (p : α → Bool) : List α → Int
  | [] => -1
  | x :: xs =>
    if p x then 0
    else if findIndexJS p xs = -1 then -1 else findIndexJS p xs + 1

/-- JavaScript `Array.prototype.at`: negative indices count from the end of
the array; out-of-range accesses yield `undefined` (here `none`). -/
def atJS (l : List α) (i : Int) : Option α :=
  if 0 ≤ i then l.get? i.toNat
  else if 0 ≤ i + l.length then l.get? (i + l.length).toNat
  else none

/-- JavaScript `String.prototype.startsWith` (`s.startsWith(p)`), phrased
as a character-list prefix test so that it is computable by structural
recursion. -/
def startsWithJS (s p : String) : Bool := p.data.isPrefixOf s.data

/-- The six identity fields compared by `Virtual.#getCurrentIndex`. -/
def nodeKey (n : AccessibilityNode) : String × String × String × Nat × String × String :=
  (n.accessibleDescription, n.accessibleName, n.accessibleValue,
    n.node, n.role, n.spokenRole)

/-- The per-element comparison performed inside `Virtual.#getCurrentIndex`:
all six identity fields of the candidate equal those of the active node. -/
def nodeMatch (a n : AccessibilityNode) : Bool :=
  n.accessibleDescription == a.accessibleDescription &&
  n.accessibleName == a.accessibleName &&
  n.accessibleValue == a.accessibleValue &&
  n.node == a.node &&
  n.role == a.role &&
  n.spokenRole == a.spokenRole

namespace Virtual

/-- `LIVE.ASSERTIVE`. Modelled from the spec: the `getLiveSpokenPhrase`
module is not among the provided sources; §4.6 says live announcements are
"tagged with its politeness level (`assertive` / `polite`) as a string
prefix". -/
def LIVE_ASSERTIVE : String := "assertive"

/-- `LIVE.POLITE`. Modelled from the spec, as for `LIVE_ASSERTIVE`. -/
def LIVE_POLITE : String := "polite"

/-- `Virtual.#getModalAccessibilityTree` restricted to a fixed active node
`a`: if `a.parentDialog` currently carries `aria-modal="true"`, only nodes
sharing that same `parentDialog` are navigable. -/
def scopeOf (doc : Doc) (a : AccessibilityNode) : List AccessibilityNode :=
  let isModal :=
    match a.parentDialog with
    | some d => doc.ariaModal d
    | none => false
  if isModal then doc.tree.filter (fun n => n.parentDialog == a.parentDialog)
  else doc.tree

/-- `Virtual.#getModalAccessibilityTree`. -/
def getModalAccessibilityTree (doc : Doc) (s : VirtualState) : List AccessibilityNode :=
  match s.activeNode with
  | none => doc.tree
  | some a => scopeOf doc a

/-- `Virtual.#getCurrentIndex`: JS `findIndex` over the six identity fields;
when `#activeNode` is `null` every strict comparison against `undefined`
fields is false, so the result is `-1`. -/
def getCurrentIndex (active : Option AccessibilityNode)
    (tree : List AccessibilityNode) : Int :=
  findIndexJS
    (fun n =>
      match active with
      | some a => nodeMatch a n
      | none => false)
    tree

/-- `Virtual.#getCurrentIndexByNode`: JS `findIndex` on the DOM reference
alone. -/
def getCurrentIndexByNode (active : Option AccessibilityNode)
    (tree : List AccessibilityNode) : Int :=
  findIndexJS
    (fun n =>
      match active with
      | some a => n.node == a.node
      | none => false)
    tree

/-- `Virtual.#spokenPhraseLogWithoutLiveRegions`. -/
def spokenPhraseLogWithoutLiveRegions (s : VirtualState) : List String :=
  s.spokenPhraseLog.filter
    (fun spokenPhrase =>
      !(startsWithJS spokenPhrase LIVE_ASSERTIVE) &&
      !(startsWithJS spokenPhrase LIVE_POLITE))

/-- The parent-dialog announcement block at the top of `Virtual.#updateState`:
when the new node's `parentDialog` is non-null (`!== null`) and differs from
the previous active node's `parentDialog` (`!== this.#activeNode?.parentDialog`,
which also covers a `null` active node, whose optional chain yields
`undefined`), the dialog node is looked up in the *full* tree and its
phrase/text pair is pushed. The source asserts the lookup succeeds with `!`;
the failed-lookup branch, which would throw in JS, is modelled as leaving
the logs alone. -/
def dialogStep (doc : Doc) (s : VirtualState)
    (accessibilityNode : AccessibilityNode) : VirtualState :=
  if accessibilityNode.parentDialog.isSome &&
      !(s.activeNode.map AccessibilityNode.parentDialog ==
        some accessibilityNode.parentDialog) then
    match accessibilityNode.parentDialog with
    | some d =>
      match doc.tree.find? (fun n => n.node == d) with
      | some parentDialogNode =>
        { s with
          itemTextLog := s.itemTextLog ++ [parentDialogNode.itemText],
          spokenPhraseLog := s.spokenPhraseLog ++ [parentDialogNode.spokenPhrase] }
      | none => s
    | none => s
  else s

/-- `Virtual.#updateState`. First the parent-dialog announcement block
(`dialogStep`), then the active node is set and, unless `ignoreIfNoChange`
suppresses an unchanged pair, the node's own pair is appended. -/
def updateState (doc : Doc) (s : VirtualState) (accessibilityNode : AccessibilityNode)
    (ignoreIfNoChange : Bool) : VirtualState :=
  let s1 := dialogStep doc s accessibilityNode
  let s2 := { s1 with activeNode := some accessibilityNode }
  if ignoreIfNoChange &&
      atJS (spokenPhraseLogWithoutLiveRegions s2) (-1) ==
        some accessibilityNode.spokenPhrase &&
      atJS s2.itemTextLog (-1) == some accessibilityNode.itemText then
    s2
  else
    { s2 with
      itemTextLog := s2.itemTextLog ++ [accessibilityNode.itemText],
      spokenPhraseLog := s2.spokenPhraseLog ++ [accessibilityNode.spokenPhrase] }

/-- `Virtual.previous`. -/
def previous (doc : Doc) (s : VirtualState) : Except VError VirtualState :=
  match s.container with
  | none => .error .notStarted
  | some _ =>
    let tree := getModalAccessibilityTree doc s
    if tree.isEmpty then .ok s
    else
      let currentIndex := getCurrentIndex s.activeNode tree
      let nextIndex : Int := if currentIndex = -1 then 0 else currentIndex - 1
      match atJS tree nextIndex with
      | some newActiveNode => .ok (updateState doc s newActiveNode false)
      | none => .ok s

/-- `Virtual.next`. -/
def next (doc : Doc) (s : VirtualState) : Except VError VirtualState :=
  match s.container with
  | none => .error .notStarted
  | some _ =>
    let tree := getModalAccessibilityTree doc s
    if tree.isEmpty then .ok s
    else
      let currentIndex := getCurrentIndex s.activeNode tree
      let nextIndex : Int :=
        if currentIndex = -1 ∨ currentIndex = (tree.length : Int) - 1 then 0
        else currentIndex + 1
      match atJS tree nextIndex with
      | some newActiveNode => .ok (updateState doc s newActiveNode false)
      | none => .ok s

/-- `Virtual.perform`: the command receives the modal-scoped tree and the
current index, and either returns a target index or a non-numeric sentinel
(`none`) meaning "no movement". An out-of-range numeric result would make
the source dereference `undefined` and throw; no node becomes active in
that case, modelled as leaving the state alone. -/
def perform (doc : Doc) (s : VirtualState)
    (command : List AccessibilityNode → Int → Option Int) : Except VError VirtualState :=
  match s.container with
  | none => .error .notStarted
  | some _ =>
    let tree := getModalAccessibilityTree doc s
    if tree.isEmpty then .ok s
    else
      let currentIndex := getCurrentIndex s.activeNode tree
      match command tree currentIndex with
      | none => .ok s
      | some nextIndex =>
        match atJS tree nextIndex with
        | some newActiveNode => .ok (updateState doc s newActiveNode false)
        | none => .ok s

/-- `Virtual.#handleFocusChange`: re-synthesize, find the node whose DOM
reference is the event target, and update state with
`ignoreIfNoChange = true`. -/
def handleFocusChange (doc : Doc) (s : VirtualState) (target : Nat) : VirtualState :=
  if doc.tree.isEmpty then s
  else
    match doc.tree.find? (fun n => n.node == target) with
    | some newActiveNode => updateState doc s newActiveNode true
    | none => s

/-- `Virtual.#refreshState`: recover the current index by DOM reference in
the re-synthesized full tree and update state. -/
def refreshState (doc : Doc) (s : VirtualState) (ignoreIfNoChange : Bool) : VirtualState :=
  let tree := doc.tree
  let currentIndex := getCurrentIndexByNode s.activeNode tree
  match atJS tree currentIndex with
  | some newActiveNode => updateState doc s newActiveNode ignoreIfNoChange
  | none => s

/-- `Virtual.#announceLiveRegions`: map the mutation batch through
`getLiveSpokenPhrase` (an external module, represented by `f`; it yields the
empty string — JS falsy, removed by `filter(Boolean)` — for non-qualifying
mutations), then push each phrase onto the spoken-phrase log in order. -/
def announceLiveRegions (f : α → String) (s : VirtualState) (mutations : List α) :
    VirtualState :=
  ((mutations.map f).filter (fun spokenPhrase => spokenPhrase != "")).foldl
    (fun st spokenPhrase =>
      { st with spokenPhraseLog := st.spokenPhraseLog ++ [spokenPhrase] })
    s

/-- `Virtual.act`: guard, then dispatch a click to the input-simulation
collaborator; the engine state itself is not mutated. -/
def act (s : VirtualState) : Except VError VirtualState :=
  match s.container with
  | none => .error .notStarted
  | some _ => .ok s

/-- `Virtual.press`: guard, dispatch the keyboard command to the
input-simulation collaborator, then `#refreshState(true)` against the
settled document `doc`. No-op when there is no active node. -/
def press (doc : Doc) (s : VirtualState) (key : String) : Except VError VirtualState :=
  match s.container with
  | none => .error .notStarted
  | some _ =>
    match s.activeNode with
    | none => .ok s
    | some _ =>
      let _ := key
      .ok (refreshState doc s true)

/-- `Virtual.type`: guard, dispatch the typed text, then
`#refreshState(true)` against the settled document `doc`. -/
def type (doc : Doc) (s : VirtualState) (text : String) : Except VError VirtualState :=
  match s.container with
  | none => .error .notStarted
  | some _ =>
    match s.activeNode with
    | none => .ok s
    | some _ =>
      let _ := text
      .ok (refreshState doc s true)

/-- `Virtual.click`: guard, then dispatch the pointer sequence to the
input-simulation collaborator; the engine state itself is not mutated. -/
def click (s : VirtualState) : Except VError VirtualState :=
  match s.container with
  | none => .error .notStarted
  | some _ => .ok s

/-- `Virtual.interact`: guarded no-op. -/
def interact (s : VirtualState) : Except VError VirtualState :=
  match s.container with
  | none => .error .notStarted
  | some _ => .ok s

/-- `Virtual.stopInteracting`: guarded no-op. -/
def stopInteracting (s : VirtualState) : Except VError VirtualState :=
  match s.container with
  | none => .error .notStarted
  | some _ => .ok s

/-- `Virtual.lastSpokenPhrase`: `this.#spokenPhraseLog.at(-1) ?? ""`. -/
def lastSpokenPhrase (s : VirtualState) : Except VError String :=
  match s.container with
  | none => .error .notStarted
  | some _ => .ok ((atJS s.spokenPhraseLog (-1)).getD "")

/-- `Virtual.itemText`: `this.#itemTextLog.at(-1) ?? ""`. -/
def itemText (s : VirtualState) : Except VError String :=
  match s.container with
  | none => .error .notStarted
  | some _ => .ok ((atJS s.itemTextLog (-1)).getD "")

/-- `Virtual.spokenPhraseLog` (the reader method). -/
def spokenPhraseLog (s : VirtualState) : Except VError (List String) :=
  match s.container with
  | none => .error .notStarted
  | some _ => .ok s.spokenPhraseLog

/-- `Virtual.itemTextLog` (the reader method). -/
def itemTextLog (s : VirtualState) : Except VError (List String) :=
  match s.container with
  | none => .error .notStarted
  | some _ => .ok s.itemTextLog

/-- `Virtual.clearSpokenPhraseLog`. -/
def clearSpokenPhraseLog (s : VirtualState) : Except VError VirtualState :=
  match s.container with
  | none => .error .notStarted
  | some _ => .ok { s with spokenPhraseLog := [] }

/-- `Virtual.clearItemTextLog`. -/
def clearItemTextLog (s : VirtualState) : Except VError VirtualState :=
  match s.container with
  | none => .error .notStarted
  | some _ => .ok { s with itemTextLog := [] }

/-- `Virtual.stop`: clears every mutable field, in particular `#container`
becomes `null`. -/
def stop (_ : VirtualState) : VirtualState :=
  { activeNode := none, container := none, itemTextLog := [], spokenPhraseLog := [] }

/-- The field initializers of the `Virtual` class: the state before
`start` is ever called. -/
def initialState : VirtualState :=
  { activeNode := none, container := none, itemTextLog := [], spokenPhraseLog := [] }

/-- One `next()` call viewed as a total state transformer (the error branch,
which only fires when the engine is not started, keeps the state). -/
def stepNext (doc : Doc) (s : VirtualState) : VirtualState :=
  match next doc s with
  | .ok s' => s'
  | .error _ => s

end Virtual

/-! ## The node classifier (`src/getNodeAccessibilityData/index.ts`) -/

/-- A DOM element as seen by `getIsInert`: its local name and the set of
attribute names it carries (`hasAttribute` only tests presence). -/
structure DomElement where
  localName : String
  attributes : List String
deriving DecidableEq, Repr

/-- `Element.hasAttribute`. -/
def DomElement.hasAttribute (e : DomElement) (name : String) : Bool :=
  e.attributes.contains name

/-- A document node as dispatched on by `isElement`. -/
inductive DomNode where
  | element (e : DomElement)
  | nonElement
deriving DecidableEq, Repr

/-- Modelled from the spec: the helper `src/isDialogRole.ts` is not among
the provided sources; spec §4.1 speaks of a node that "carries a
modal-dialog role", and the dialog roles of the governing ARIA
specification are `dialog` and `alertdialog`. -/
def isDialogRole (role : String) : Bool :=
  role == "dialog" || role == "alertdialog"

/-- `getIsInert` from `src/getNodeAccessibilityData/index.ts`. -/
def getIsInert (inheritedImplicitInert : Bool) (node : DomNode) (role : String) : Bool :=
  match node with
  | .nonElement => inheritedImplicitInert
  | .element e =>
    let isNativeModalDialog := e.localName == "dialog" && e.hasAttribute "open"
    let isNonNativeModalDialog := isDialogRole role && e.hasAttribute "aria-modal"
    let isModalDialog := isNonNativeModalDialog || isNativeModalDialog
    let isExplicitInert := e.hasAttribute "inert"
    isExplicitInert || (inheritedImplicitInert && !isModalDialog)

/-! ## The hidden-node classifier (`isHiddenFromAccessibilityTree`) -/

/-- A host element as seen by `isHiddenFromAccessibilityTree`: the `hidden`
reflected property, the `aria-hidden` attribute value, the number of
tabbable descendants (computed by the external `tabbable` library), the two
computed-style fields, and whether the host implementation throws on this
element (the `catch` branch, e.g. `<math>` under JSDOM). -/
structure HostElement where
  hidden : Bool
  ariaHidden : Option String
  tabbableCount : Nat
  display : Option String
  visibility : Option String
  unsupported : Bool
deriving DecidableEq, Repr

/-- A host document node: a text node with its `textContent`, an element,
or any other node kind (comment, doctype, ...). -/
inductive HostNode where
  | text (content : String)
  | element (e : HostElement)
  | other
deriving DecidableEq, Repr

/-- `isHiddenFromAccessibilityTree`. A throwing host access anywhere inside
the `try` block yields `true`; since the element's modelled fields are
fixed, checking the `unsupported` flag first is observationally the same. -/
def isHiddenFromAccessibilityTree : Option HostNode → Bool
  | none => true
  | some (.text content) => if content.trim ≠ "" then false else true
  | some .other => true
  | some (.element e) =>
    if e.unsupported then true
    else if e.hidden then true
    else if e.ariaHidden == some "true" && e.tabbableCount == 0 then true
    else if e.visibility == some "hidden" || e.display == some "none" then true
    else false

/-! ## Helper lemmas -/

lemma nodeMatch_iff (a n : AccessibilityNode) :
    nodeMatch a n = true ↔ nodeKey n = nodeKey a := by
  simp only [nodeMatch, nodeKey, Bool.and_eq_true, beq_iff_eq, Prod.mk.injEq]
  tauto

lemma nodeMatch_self (a : AccessibilityNode) : nodeMatch a a = true := by
  simp [nodeMatch]

lemma getCurrentIndex_some (a : AccessibilityNode) (T : List AccessibilityNode) :
    Virtual.getCurrentIndex (some a) T = findIndexJS (fun n => nodeMatch a n) T := rfl

lemma getCurrentIndex_eq_of_nodup (T : List AccessibilityNode) (a : AccessibilityNode)
    (hnd : (T.map nodeKey).Nodup) {j : Nat} (hj : T.get? j = some a) :
    Virtual.getCurrentIndex (some a) T = (j : Int) := by
  rw [getCurrentIndex_some]
  induction T generalizing j with
  | nil => simp at hj
  | cons x xs ih =>
    rw [List.map_cons, List.nodup_cons] at hnd
    cases j with
    | zero =>
      simp only [List.get?] at hj
      cases hj
      simp [findIndexJS, nodeMatch_self]
    | succ j =>
      simp only [List.get?] at hj
      have hmem : a ∈ xs := List.get?_mem hj
      have hxk : nodeMatch a x = false := by
        rw [Bool.eq_false_iff]
        intro h
        exact hnd.1 ((nodeMatch_iff a x).mp h ▸ List.mem_map_of_mem nodeKey hmem)
      have ihx := ih hnd.2 hj
      have hne : findIndexJS (fun n => nodeMatch a n) xs ≠ -1 := by
        rw [ihx]; omega
      rw [findIndexJS, hxk, if_neg (by simp), if_neg hne, ihx]
      push_cast
      ring

lemma atJS_natCast (l : List α) (j : Nat) : atJS l (j : Int) = l.get? j := by
  simp [atJS]

lemma atJS_neg_one (l : List α) (h : l ≠ []) : atJS l (-1) = l.get? (l.length - 1) := by
  have hlen : 0 < l.length := List.length_pos.mpr h
  have h1 : ¬ (0 : Int) ≤ -1 := by omega
  have h2 : (0 : Int) ≤ -1 + l.length := by omega
  rw [atJS, if_neg h1, if_pos h2]
  congr 1
  omega

lemma atJS_mem {l : List α} {i : Int} {x : α} (h : atJS l i = some x) : x ∈ l := by
  unfold atJS at h
  split at h
  · exact List.get?_mem h
  · split at h
    · exact List.get?_mem h
    · simp at h

lemma dialogStep_activeNode (doc : Doc) (s : VirtualState) (n : AccessibilityNode) :
    (Virtual.dialogStep doc s n).activeNode = s.activeNode := by
  unfold Virtual.dialogStep
  repeat' split
  all_goals rfl

lemma dialogStep_container (doc : Doc) (s : VirtualState) (n : AccessibilityNode) :
    (Virtual.dialogStep doc s n).container = s.container := by
  unfold Virtual.dialogStep
  repeat' split
  all_goals rfl

lemma updateState_activeNode (doc : Doc) (s : VirtualState) (n : AccessibilityNode)
    (ig : Bool) : (Virtual.updateState doc s n ig).activeNode = some n := by
  unfold Virtual.updateState
  dsimp only
  split <;> rfl

lemma updateState_container (doc : Doc) (s : VirtualState) (n : AccessibilityNode)
    (ig : Bool) : (Virtual.updateState doc s n ig).container = s.container := by
  unfold Virtual.updateState
  dsimp only
  split
  · exact dialogStep_container doc s n
  · exact dialogStep_container doc s n

/-! ## C5: not-started guard -/

/-- An arbitrary document, used to exercise operations of an engine that was
never started. -/
def notStartedDoc : Doc := { tree := [], ariaModal := fun _ => false }

/-- C5: every cursor, navigation, or log operation of the engine invoked
before `start()` or after `stop()` (that is, while `#container` is `null`:
the initial state and the state `stop()` leaves behind) fails with the
not-started error, surfaced directly to the caller with no state mutation. -/
theorem c5_not_started_guard (doc : Doc) (s : VirtualState) (h : s.container = none) :
    Virtual.next doc s = .error .notStarted ∧
    Virtual.previous doc s = .error .notStarted ∧
    Virtual.act s = .error .notStarted ∧
    (∀ key : String, Virtual.press doc s key = .error .notStarted) ∧
    (∀ text : String, Virtual.type doc s text = .error .notStarted) ∧
    Virtual.click s = .error .notStarted ∧
    (∀ command, Virtual.perform doc s command = .error .notStarted) ∧
    Virtual.interact s = .error .notStarted ∧
    Virtual.stopInteracting s = .error .notStarted ∧
    Virtual.lastSpokenPhrase s = .error .notStarted ∧
    Virtual.itemText s = .error .notStarted ∧
    Virtual.spokenPhraseLog s = .error .notStarted ∧
    Virtual.itemTextLog s = .error .notStarted ∧
    Virtual.clearSpokenPhraseLog s = .error .notStarted ∧
    Virtual.clearItemTextLog s = .error .notStarted ∧
    Virtual.initialState.container = none ∧
    (∀ s0 : VirtualState, (Virtual.stop s0).container = none) := by
  simp [Virtual.next, Virtual.previous, Virtual.act, Virtual.press, Virtual.type,
    Virtual.click, Virtual.perform, Virtual.interact, Virtual.stopInteracting,
    Virtual.lastSpokenPhrase, Virtual.itemText, Virtual.spokenPhraseLog,
    Virtual.itemTextLog, Virtual.clearSpokenPhraseLog, Virtual.clearItemTextLog,
    Virtual.initialState, Virtual.stop, h]

/-- Witness for C5 at the initial (never started) state. -/
theorem c5_witness :
    Virtual.next notStartedDoc Virtual.initialState = .error .notStarted ∧
    Virtual.previous notStartedDoc Virtual.initialState = .error .notStarted ∧
    Virtual.act Virtual.initialState = .error .notStarted ∧
    Virtual.press notStartedDoc Virtual.initialState "a" = .error .notStarted ∧
    Virtual.type notStartedDoc Virtual.initialState "hello" = .error .notStarted ∧
    Virtual.click Virtual.initialState = .error .notStarted ∧
    Virtual.perform notStartedDoc Virtual.initialState (fun _ _ => none) =
      .error .notStarted ∧
    Virtual.interact Virtual.initialState = .error .notStarted ∧
    Virtual.stopInteracting Virtual.initialState = .error .notStarted ∧
    Virtual.lastSpokenPhrase Virtual.initialState = .error .notStarted ∧
    Virtual.itemText Virtual.initialState = .error .notStarted ∧
    Virtual.spokenPhraseLog Virtual.initialState = .error .notStarted ∧
    Virtual.itemTextLog Virtual.initialState = .error .notStarted ∧
    Virtual.clearSpokenPhraseLog Virtual.initialState = .error .notStarted ∧
    Virtual.clearItemTextLog Virtual.initialState = .error .notStarted := by
  obtain ⟨h1, h2, h3, h4, h5, h6, h7, h8, h9, h10, h11, h12, h13, h14, h15, -, -⟩ :=
    c5_not_started_guard notStartedDoc Virtual.initialState rfl
  exact ⟨h1, h2, h3, h4 "a", h5 "hello", h6, h7 _, h8, h9, h10, h11, h12, h13, h14, h15⟩

/-! ## C7: the `getIsInert` classifier -/

/-- C7: for every document element, `getIsInert` is true exactly when the
element carries an explicit `inert` attribute, or the inherited inert flag
is set and the element is not a modal dialog; and being a modal dialog is
exactly being a native `dialog` element with the `open` attribute, or having
a dialog role together with an `aria-modal` attribute. -/
theorem c7_is_inert_rule (inh : Bool) (e : DomElement) (role : String) :
    getIsInert inh (DomNode.element e) role = true ↔
      (e.hasAttribute "inert" = true ∨
        (inh = true ∧
          ¬((e.localName = "dialog" ∧ e.hasAttribute "open" = true) ∨
            (isDialogRole role = true ∧ e.hasAttribute "aria-modal" = true)))) := by
  cases h1 : e.hasAttribute "inert" <;>
    cases h2 : e.hasAttribute "open" <;>
      cases h3 : e.hasAttribute "aria-modal" <;>
        cases h4 : isDialogRole role <;>
          cases inh <;>
            cases h5 : e.localName == "dialog" <;>
              simp_all [getIsInert, beq_iff_eq]

/-! ## C8: `aria-hidden` and tabbable descendants -/

/-- C8: an element carrying `aria-hidden="true"` (on which the host throws
no exception) is pruned whenever it has no tabbable descendants; with
tabbable descendants the `aria-hidden` marker alone does not hide it, and it
is hidden exactly when the `hidden` attribute, computed `display:none`, or
computed `visibility:hidden` applies. -/
theorem c8_aria_hidden_rule (e : HostElement) (hah : e.ariaHidden = some "true")
    (hsup : e.unsupported = false) :
    (e.tabbableCount = 0 →
      isHiddenFromAccessibilityTree (some (HostNode.element e)) = true) ∧
    (e.tabbableCount ≠ 0 →
      (isHiddenFromAccessibilityTree (some (HostNode.element e)) = true ↔
        (e.hidden = true ∨ e.display = some "none" ∨ e.visibility = some "hidden"))) := by
  constructor
  · intro h0
    cases hh : e.hidden <;> simp [isHiddenFromAccessibilityTree, hsup, hah, hh, h0]
  · intro hn
    have h0 : (e.tabbableCount == 0) = false := by simpa using hn
    cases hh : e.hidden <;>
      simp [isHiddenFromAccessibilityTree, hsup, hah, hh, h0, Bool.or_eq_true,
        beq_iff_eq, or_comm]

/-- An `aria-hidden` element with no tabbable descendants. -/
def c8ElemA : HostElement :=
  { hidden := false, ariaHidden := some "true", tabbableCount := 0,
    display := none, visibility := none, unsupported := false }

/-- An `aria-hidden` element with two tabbable descendants and computed
`display:none`. -/
def c8ElemB : HostElement :=
  { hidden := false, ariaHidden := some "true", tabbableCount := 2,
    display := some "none", visibility := none, unsupported := false }

/-- Witness for C8 at two concrete elements. -/
theorem c8_witness :
    isHiddenFromAccessibilityTree (some (HostNode.element c8ElemA)) = true ∧
    (isHiddenFromAccessibilityTree (some (HostNode.element c8ElemB)) = true ↔
      (c8ElemB.hidden = true ∨ c8ElemB.display = some "none" ∨
        c8ElemB.visibility = some "hidden")) :=
  ⟨(c8_aria_hidden_rule c8ElemA rfl rfl).1 rfl,
   (c8_aria_hidden_rule c8ElemB rfl rfl).2 (by decide)⟩

/-! ## C9: live-region announcements -/

lemma foldl_push_spokenPhraseLog (l : List String) (s : VirtualState) :
    l.foldl
      (fun st spokenPhrase =>
        { st with spokenPhraseLog := st.spokenPhraseLog ++ [spokenPhrase] }) s =
      { s with spokenPhraseLog := s.spokenPhraseLog ++ l } := by
  induction l generalizing s with
  | nil => simp
  | cons x xs ih => simp [List.foldl_cons, ih, List.append_assoc]

/-- C9: processing a mutation batch appends exactly the qualifying phrases,
in batch order, to the spoken-phrase log, and leaves the item-text log and
the active node untouched; non-qualifying mutations (empty phrase, removed
by `filter(Boolean)`) contribute nothing. -/
theorem c9_live_region_append {α : Type} (f : α → String) (s : VirtualState)
    (mutations : List α) :
    Virtual.announceLiveRegions f s mutations =
      { s with spokenPhraseLog :=
          s.spokenPhraseLog ++
            (mutations.map f).filter (fun spokenPhrase => spokenPhrase != "") } ∧
    (Virtual.announceLiveRegions f s mutations).itemTextLog = s.itemTextLog ∧
    (Virtual.announceLiveRegions f s mutations).activeNode = s.activeNode := by
  have h := foldl_push_spokenPhraseLog
    ((mutations.map f).filter (fun spokenPhrase => spokenPhrase != "")) s
  refine ⟨h, ?_, ?_⟩ <;> rw [Virtual.announceLiveRegions, h]

/-! ## C10: `lastSpokenPhrase` -/

/-- C10: on a started engine, `lastSpokenPhrase` returns the last entry of
the spoken-phrase log, and the empty string when the log is empty; it never
fails on an empty log. -/
theorem c10_last_spoken_phrase (s : VirtualState) (c : Nat) (hc : s.container = some c) :
    (s.spokenPhraseLog = [] → Virtual.lastSpokenPhrase s = .ok "") ∧
    (∀ (l : List String) (p : String), s.spokenPhraseLog = l ++ [p] →
      Virtual.lastSpokenPhrase s = .ok p) := by
  constructor
  · intro h
    simp [Virtual.lastSpokenPhrase, hc, h, atJS]
  · intro l p h
    have hne : s.spokenPhraseLog ≠ [] := by simp [h]
    simp only [Virtual.lastSpokenPhrase, hc]
    rw [atJS_neg_one _ hne, h]
    simp [List.get?_concat_length]

/-- A started engine whose spoken-phrase log is empty. -/
def c10SEmpty : VirtualState :=
  { activeNode := none, container := some 0, itemTextLog := [], spokenPhraseLog := [] }

/-- A started engine whose spoken-phrase log holds two entries. -/
def c10STwo : VirtualState :=
  { activeNode := none, container := some 0, itemTextLog := [],
    spokenPhraseLog := ["document", "button, Pause"] }

/-- Witness for C10 at an empty and a two-entry log. -/
theorem c10_witness :
    Virtual.lastSpokenPhrase c10SEmpty = .ok "" ∧
    Virtual.lastSpokenPhrase c10STwo = .ok "button, Pause" :=
  ⟨(c10_last_spoken_phrase c10SEmpty 0 rfl).1 rfl,
   (c10_last_spoken_phrase c10STwo 0 rfl).2 ["document"] "button, Pause" rfl⟩

/-! ## C1: `previous()` at index 0 -/

lemma getCurrentIndex_ne_of_nil (active : Option AccessibilityNode) :
    Virtual.getCurrentIndex active [] = -1 := by
  cases active <;> rfl

/-- Sample first node for the C1 counterexample. -/
def c1n0 : AccessibilityNode :=
  { node := 1, role := "document", spokenRole := "document", accessibleName := "",
    accessibleDescription := "", accessibleValue := "", parentDialog := none,
    spokenPhrase := "document", itemText := "" }

/-- Sample last node for the C1 counterexample. -/
def c1n1 : AccessibilityNode :=
  { node := 2, role := "button", spokenRole := "button", accessibleName := "Go",
    accessibleDescription := "", accessibleValue := "", parentDialog := none,
    spokenPhrase := "button, Go", itemText := "Go" }

/-- Two-node document for the C1 counterexample. -/
def c1Doc : Doc := { tree := [c1n0, c1n1], ariaModal := fun _ => false }

/-- Started engine positioned on the first node of `c1Doc`. -/
def c1S : VirtualState :=
  { activeNode := some c1n0, container := some 0, itemTextLog := [""],
    spokenPhraseLog := ["document"] }

/-- C1 counterexample: with the cursor on index 0 of a two-node sequence,
`previous()` computes `nextIndex = -1` and `tree.at(-1)` — the JS negative
index — returns the *last* node, so the cursor does wrap from the start to
the end, contrary to the claim. -/
theorem c1_counterexample :
    Virtual.getCurrentIndex c1S.activeNode (Virtual.getModalAccessibilityTree c1Doc c1S)
      = 0 ∧
    (Virtual.previous c1Doc c1S).map VirtualState.activeNode = .ok (some c1n1) ∧
    (Virtual.getModalAccessibilityTree c1Doc c1S).get? 1 = some c1n1 ∧
    (Virtual.getModalAccessibilityTree c1Doc c1S).length = 2 ∧
    ¬ c1n1 = c1n0 :=
  ⟨rfl, rfl, rfl, rfl, by decide⟩

/-- C1 as amended: when the current index of the active node is 0,
`previous()` moves the cursor to the *last* node of the modal-scoped
sequence (the clamp to index 0 only applies when the active node is not
found, i.e. when the found index was −1). -/
theorem c1_amended (doc : Doc) (s : VirtualState) (c : Nat)
    (hc : s.container = some c)
    (h0 : Virtual.getCurrentIndex s.activeNode
      (Virtual.getModalAccessibilityTree doc s) = 0) :
    (Virtual.previous doc s).map VirtualState.activeNode =
      .ok ((Virtual.getModalAccessibilityTree doc s).get?
        ((Virtual.getModalAccessibilityTree doc s).length - 1)) := by
  set T := Virtual.getModalAccessibilityTree doc s with hT
  have hne : T ≠ [] := by
    intro hnil
    rw [hnil, getCurrentIndex_ne_of_nil] at h0
    omega
  have hlen : 0 < T.length := List.length_pos.mpr hne
  have hget : T.get? (T.length - 1) = some (T.get ⟨T.length - 1, by omega⟩) :=
    List.get?_eq_get (by omega)
  simp only [Virtual.previous, hc, ← hT]
  rw [if_neg (by simpa [List.isEmpty_iff] using hne), h0]
  norm_num
  rw [atJS_neg_one _ hne, hget]
  simp [Except.map, updateState_activeNode, hget]

/-- Witness for the amended C1 at the concrete two-node engine. -/
theorem c1_amended_witness :
    (Virtual.previous c1Doc c1S).map VirtualState.activeNode =
      .ok ((Virtual.getModalAccessibilityTree c1Doc c1S).get?
        ((Virtual.getModalAccessibilityTree c1Doc c1S).length - 1)) :=
  c1_amended c1Doc c1S 0 rfl rfl

/-! ## C2: modal scoping of navigation -/

lemma modalTree_parentDialog (doc : Doc) (s : VirtualState) (a : AccessibilityNode)
    (d : Nat) (ha : s.activeNode = some a) (hd : a.parentDialog = some d)
    (hm : doc.ariaModal d = true) :
    ∀ n ∈ Virtual.getModalAccessibilityTree doc s, n.parentDialog = some d := by
  intro n hn
  simp only [Virtual.getModalAccessibilityTree, ha, Virtual.scopeOf, hd, hm,
    if_true] at hn
  rw [List.mem_filter] at hn
  exact beq_iff_eq.mp hn.2

lemma next_active_cases (doc : Doc) (s s' : VirtualState)
    (h : Virtual.next doc s = .ok s') :
    s'.activeNode = s.activeNode ∨
      ∃ n ∈ Virtual.getModalAccessibilityTree doc s, s'.activeNode = some n := by
  unfold Virtual.next at h
  rcases hcs : s.container with - | c <;> rw [hcs] at h
  · simp at h
  · dsimp only at h
    split at h
    · simp only [Except.ok.injEq] at h
      exact .inl (h ▸ rfl)
    · split at h
      next nn heq =>
        simp only [Except.ok.injEq] at h
        exact .inr ⟨nn, atJS_mem heq, h ▸ updateState_activeNode doc s nn false⟩
      next =>
        simp only [Except.ok.injEq] at h
        exact .inl (h ▸ rfl)

lemma previous_active_cases (doc : Doc) (s s' : VirtualState)
    (h : Virtual.previous doc s = .ok s') :
    s'.activeNode = s.activeNode ∨
      ∃ n ∈ Virtual.getModalAccessibilityTree doc s, s'.activeNode = some n := by
  unfold Virtual.previous at h
  rcases hcs : s.container with - | c <;> rw [hcs] at h
  · simp at h
  · dsimp only at h
    split at h
    · simp only [Except.ok.injEq] at h
      exact .inl (h ▸ rfl)
    · split at h
      next nn heq =>
        simp only [Except.ok.injEq] at h
        exact .inr ⟨nn, atJS_mem heq, h ▸ updateState_activeNode doc s nn false⟩
      next =>
        simp only [Except.ok.injEq] at h
        exact .inl (h ▸ rfl)

lemma perform_active_cases (doc : Doc) (s s' : VirtualState)
    (command : List AccessibilityNode → Int → Option Int)
    (h : Virtual.perform doc s command = .ok s') :
    s'.activeNode = s.activeNode ∨
      ∃ n ∈ Virtual.getModalAccessibilityTree doc s, s'.activeNode = some n := by
  unfold Virtual.perform at h
  rcases hcs : s.container with - | c <;> rw [hcs] at h
  · simp at h
  · dsimp only at h
    split at h
    · simp only [Except.ok.injEq] at h
      exact .inl (h ▸ rfl)
    · split at h
      · simp only [Except.ok.injEq] at h
        exact .inl (h ▸ rfl)
      · split at h
        next nn heq =>
          simp only [Except.ok.injEq] at h
          exact .inr ⟨nn, atJS_mem heq, h ▸ updateState_activeNode doc s nn false⟩
        next =>
          simp only [Except.ok.injEq] at h
          exact .inl (h ▸ rfl)

/-- C2: while the active node's `parentDialog` carries `aria-modal="true"`,
any node that `next()`, `previous()` or `perform()` makes active shares that
same `parentDialog`: navigation never leaves the modal dialog's contents. -/
theorem c2_modal_scoping (doc : Doc) (s : VirtualState) (a : AccessibilityNode)
    (d : Nat) (ha : s.activeNode = some a) (hd : a.parentDialog = some d)
    (hm : doc.ariaModal d = true) :
    (∀ s' n, Virtual.next doc s = .ok s' → s'.activeNode = some n →
      n.parentDialog = some d) ∧
    (∀ s' n, Virtual.previous doc s = .ok s' → s'.activeNode = some n →
      n.parentDialog = some d) ∧
    (∀ command s' n, Virtual.perform doc s command = .ok s' → s'.activeNode = some n →
      n.parentDialog = some d) := by
  have hscope := modalTree_parentDialog doc s a d ha hd hm
  have handle :
      ∀ s' : VirtualState,
        (s'.activeNode = s.activeNode ∨
          ∃ n ∈ Virtual.getModalAccessibilityTree doc s, s'.activeNode = some n) →
        ∀ n, s'.activeNode = some n → n.parentDialog = some d := by
    rintro s' (he | ⟨m, hmm, he⟩) n hn
    · rw [he, ha] at hn
      cases hn
      exact hd
    · rw [he] at hn
      cases hn
      exact hscope m hmm
  exact ⟨fun s' n h1 h2 => handle s' (next_active_cases doc s s' h1) n h2,
    fun s' n h1 h2 => handle s' (previous_active_cases doc s s' h1) n h2,
    fun command s' n h1 h2 =>
      handle s' (perform_active_cases doc s s' command h1) n h2⟩

/-- Active node inside the modal dialog 7, for the C2 witness. -/
def c2A : AccessibilityNode :=
  { node := 10, role := "button", spokenRole := "button", accessibleName := "OK",
    accessibleDescription := "", accessibleValue := "", parentDialog := some 7,
    spokenPhrase := "button, OK", itemText := "OK" }

/-- Second node inside the modal dialog 7, for the C2 witness. -/
def c2N1 : AccessibilityNode :=
  { node := 11, role := "button", spokenRole := "button", accessibleName := "Cancel",
    accessibleDescription := "", accessibleValue := "", parentDialog := some 7,
    spokenPhrase := "button, Cancel", itemText := "Cancel" }

/-- A node outside the dialog, for the C2 witness. -/
def c2Out : AccessibilityNode :=
  { node := 12, role := "paragraph", spokenRole := "paragraph", accessibleName := "",
    accessibleDescription := "", accessibleValue := "", parentDialog := none,
    spokenPhrase := "Outside", itemText := "Outside" }

/-- Document with an `aria-modal="true"` dialog (identity 7), for the C2
witness. -/
def c2Doc : Doc := { tree := [c2A, c2N1, c2Out], ariaModal := fun d => d == 7 }

/-- Started engine whose active node sits inside the modal dialog. -/
def c2S : VirtualState :=
  { activeNode := some c2A, container := some 0, itemTextLog := ["OK"],
    spokenPhraseLog := ["button, OK"] }

/-- Witness for C2: from inside the modal dialog, `next()` lands on `c2N1`,
which indeed shares the dialog's `parentDialog`. -/
theorem c2_witness :
    c2S.activeNode = some c2A ∧ c2A.parentDialog = some 7 ∧
    c2Doc.ariaModal 7 = true ∧ c2N1.parentDialog = some 7 :=
  ⟨rfl, rfl, rfl,
    (c2_modal_scoping c2Doc c2S c2A 7 rfl rfl rfl).1
      (Virtual.updateState c2Doc c2S c2N1 false) c2N1 rfl
      (updateState_activeNode c2Doc c2S c2N1 false)⟩

/-! ## C4: the dialog-transition double announcement -/

/-- Node outside any dialog (the target of the C4 counterexample `next()`). -/
def c4xOut : AccessibilityNode :=
  { node := 1, role := "paragraph", spokenRole := "paragraph", accessibleName := "",
    accessibleDescription := "", accessibleValue := "", parentDialog := none,
    spokenPhrase := "P0", itemText := "I0" }

/-- The dialog node itself (identity 7). -/
def c4xDlg : AccessibilityNode :=
  { node := 7, role := "dialog", spokenRole := "dialog", accessibleName := "Confirm",
    accessibleDescription := "", accessibleValue := "", parentDialog := some 7,
    spokenPhrase := "DLG", itemText := "DI" }

/-- A node inside dialog 7 (the previously active node). -/
def c4xIn : AccessibilityNode :=
  { node := 2, role := "button", spokenRole := "button", accessibleName := "Yes",
    accessibleDescription := "", accessibleValue := "", parentDialog := some 7,
    spokenPhrase := "P2", itemText := "I2" }

/-- Document whose dialog 7 carries no `aria-modal` attribute (e.g. a native
modal dialog), so navigation is not modally scoped and can leave it. -/
def c4xDoc : Doc := { tree := [c4xOut, c4xDlg, c4xIn], ariaModal := fun _ => false }

/-- Started engine whose active node sits inside dialog 7. -/
def c4xS : VirtualState :=
  { activeNode := some c4xIn, container := some 0, itemTextLog := ["I2"],
    spokenPhraseLog := ["P2"] }

/-- C4 counterexample: `next()` wraps from the last node (inside dialog 7)
to the first node (outside any dialog). The newly active node's
`parentDialog` (`none`) differs from the previous one (`some 7`) — the
cursor *leaves* a dialog scope — yet exactly one phrase/text pair is
appended, not two: the extra dialog announcement fires only when the new
node's `parentDialog` is non-null. -/
theorem c4_counterexample :
    c4xS.activeNode.map AccessibilityNode.parentDialog = some (some 7) ∧
    c4xOut.parentDialog = none ∧
    Virtual.next c4xDoc c4xS =
      .ok { activeNode := some c4xOut, container := some 0,
            itemTextLog := ["I2", "I0"], spokenPhraseLog := ["P2", "P0"] } :=
  ⟨rfl, rfl, rfl⟩

/-- C4 as amended: the two-entry behaviour (dialog pair first, then the
target node's own pair) happens *exactly when* the newly active node's
`parentDialog` is non-null and differs from the previous active node's
`parentDialog` (entering a dialog or crossing between dialogs). The two
remaining cases each append only the target node's own pair: a null
`parentDialog` (leaving a dialog), and a non-null `parentDialog` equal to
the previous one (movement within the same dialog). -/
theorem c4_amended (doc : Doc) (s : VirtualState) (node pd : AccessibilityNode)
    (d : Nat) (hpd : node.parentDialog = some d)
    (hne : s.activeNode.map AccessibilityNode.parentDialog ≠ some (some d))
    (hfind : doc.tree.find? (fun n => n.node == d) = some pd) :
    Virtual.updateState doc s node false =
      { activeNode := some node, container := s.container,
        itemTextLog := s.itemTextLog ++ [pd.itemText, node.itemText],
        spokenPhraseLog := s.spokenPhraseLog ++ [pd.spokenPhrase, node.spokenPhrase] } ∧
    (∀ node2 : AccessibilityNode, node2.parentDialog = none →
      Virtual.updateState doc s node2 false =
        { activeNode := some node2, container := s.container,
          itemTextLog := s.itemTextLog ++ [node2.itemText],
          spokenPhraseLog := s.spokenPhraseLog ++ [node2.spokenPhrase] }) ∧
    (∀ (node3 : AccessibilityNode) (d3 : Nat), node3.parentDialog = some d3 →
      s.activeNode.map AccessibilityNode.parentDialog = some (some d3) →
      Virtual.updateState doc s node3 false =
        { activeNode := some node3, container := s.container,
          itemTextLog := s.itemTextLog ++ [node3.itemText],
          spokenPhraseLog := s.spokenPhraseLog ++ [node3.spokenPhrase] }) := by
  refine ⟨?_, ?_, ?_⟩
  · have hcond : (node.parentDialog.isSome &&
        !(s.activeNode.map AccessibilityNode.parentDialog ==
          some node.parentDialog)) = true := by
      rw [hpd]
      simp only [Option.isSome_some, Bool.true_and, Bool.not_eq_true']
      exact beq_eq_false_iff_ne.mpr hne
    have hds : Virtual.dialogStep doc s node =
        { s with
          itemTextLog := s.itemTextLog ++ [pd.itemText],
          spokenPhraseLog := s.spokenPhraseLog ++ [pd.spokenPhrase] } := by
      rw [Virtual.dialogStep, if_pos hcond]
      simp only [hpd, hfind]
    unfold Virtual.updateState
    dsimp only
    rw [hds]
    simp
  · intro node2 h2
    simp [Virtual.updateState, Virtual.dialogStep, h2]
  · intro node3 d3 h3 heq
    have hb : (s.activeNode.map AccessibilityNode.parentDialog ==
        some node3.parentDialog) = true := by
      rw [h3]
      exact beq_iff_eq.mpr heq
    simp [Virtual.updateState, Virtual.dialogStep, hb]

/-- A node inside a second dialog (identity 8), active in the C4 witness
state. -/
def c4wIn8 : AccessibilityNode :=
  { node := 5, role := "button", spokenRole := "button", accessibleName := "No",
    accessibleDescription := "", accessibleValue := "", parentDialog := some 8,
    spokenPhrase := "P8", itemText := "I8" }

/-- Another node inside the same dialog 8, the same-dialog movement target
of the C4 witness. -/
def c4wIn8b : AccessibilityNode :=
  { node := 6, role := "button", spokenRole := "button", accessibleName := "Maybe",
    accessibleDescription := "", accessibleValue := "", parentDialog := some 8,
    spokenPhrase := "P8b", itemText := "I8b" }

/-- Engine state for the C4 witness: active node inside dialog 8 (a dialog
other than dialog 7 of `c4xDoc`). -/
def c4wS : VirtualState :=
  { activeNode := some c4wIn8, container := some 0, itemTextLog := ["I8"],
    spokenPhraseLog := ["P8"] }

/-- Witness for the amended C4: crossing from dialog 8 into dialog 7
appends the dialog pair and then the target pair; moving to a dialog-free
node appends one pair; moving to another node of the same dialog 8 appends
one pair. -/
theorem c4_amended_witness :
    Virtual.updateState c4xDoc c4wS c4xIn false =
      { activeNode := some c4xIn, container := c4wS.container,
        itemTextLog := c4wS.itemTextLog ++ [c4xDlg.itemText, c4xIn.itemText],
        spokenPhraseLog :=
          c4wS.spokenPhraseLog ++ [c4xDlg.spokenPhrase, c4xIn.spokenPhrase] } ∧
    Virtual.updateState c4xDoc c4wS c4xOut false =
      { activeNode := some c4xOut, container := c4wS.container,
        itemTextLog := c4wS.itemTextLog ++ [c4xOut.itemText],
        spokenPhraseLog := c4wS.spokenPhraseLog ++ [c4xOut.spokenPhrase] } ∧
    Virtual.updateState c4xDoc c4wS c4wIn8b false =
      { activeNode := some c4wIn8b, container := c4wS.container,
        itemTextLog := c4wS.itemTextLog ++ [c4wIn8b.itemText],
        spokenPhraseLog := c4wS.spokenPhraseLog ++ [c4wIn8b.spokenPhrase] } := by
  have h := c4_amended c4xDoc c4wS c4xIn c4xDlg 7 rfl (by decide) rfl
  exact ⟨h.1, h.2.1 c4xOut rfl, h.2.2 c4wIn8b 8 rfl rfl⟩

/-! ## C6: idempotent re-focus -/

/-- C6 as amended: on a focus notification whose target is found in the
tree, *provided* the found node's `parentDialog` does not (as a non-null
value) differ from the previous active node's `parentDialog`, and its
spoken phrase equals the last non-live-region entry of the spoken-phrase
log and its item text equals the last item-text entry, the engine updates
the active node and appends nothing to either log. -/
theorem c6_amended (doc : Doc) (s : VirtualState) (target : Nat)
    (n : AccessibilityNode)
    (hfind : doc.tree.find? (fun nd => nd.node == target) = some n)
    (hdlg : s.activeNode.map AccessibilityNode.parentDialog = some n.parentDialog ∨
      n.parentDialog = none)
    (hph : atJS (Virtual.spokenPhraseLogWithoutLiveRegions s) (-1) =
      some n.spokenPhrase)
    (hit : atJS s.itemTextLog (-1) = some n.itemText) :
    Virtual.handleFocusChange doc s target = { s with activeNode := some n } := by
  have hne : ¬ doc.tree.isEmpty = true := by
    intro hemp
    rw [List.isEmpty_iff] at hemp
    rw [hemp] at hfind
    simp at hfind
  have hcond : (n.parentDialog.isSome &&
      !(s.activeNode.map AccessibilityNode.parentDialog ==
        some n.parentDialog)) = false := by
    rcases hdlg with h | h
    · simp [h]
    · simp [h]
  have hstep : Virtual.dialogStep doc s n = s := by
    rw [Virtual.dialogStep, if_neg (by simp [hcond])]
  have hfilter : Virtual.spokenPhraseLogWithoutLiveRegions
      { s with activeNode := some n } =
      Virtual.spokenPhraseLogWithoutLiveRegions s := rfl
  rw [Virtual.handleFocusChange, if_neg hne, hfind]
  unfold Virtual.updateState
  dsimp only
  rw [hstep]
  have h1 : atJS (Virtual.spokenPhraseLogWithoutLiveRegions
      ({ s with activeNode := some n } : VirtualState)) (-1) = some n.spokenPhrase := by
    rw [hfilter]
    exact hph
  simp [h1, hit]

/-- Node for the C6 witness: re-focused node matching the log tails. -/
def c6n : AccessibilityNode :=
  { node := 3, role := "textbox", spokenRole := "textbox", accessibleName := "Name",
    accessibleDescription := "", accessibleValue := "", parentDialog := none,
    spokenPhrase := "textbox, Name", itemText := "Name" }

/-- One-node document for the C6 witness. -/
def c6Doc : Doc := { tree := [c6n], ariaModal := fun _ => false }

/-- Started engine whose log tails already match `c6n`'s pair. -/
def c6S : VirtualState :=
  { activeNode := some c6n, container := some 0, itemTextLog := ["Name"],
    spokenPhraseLog := ["textbox, Name"] }

/-- Witness for the amended C6: re-focusing `c6n` updates the active node
and appends nothing. -/
theorem c6_amended_witness :
    Virtual.handleFocusChange c6Doc c6S 3 = { c6S with activeNode := some c6n } :=
  c6_amended c6Doc c6S 3 c6n (by rfl) (Or.inr rfl) (by rfl) (by rfl)

/-- Previously active node (outside any dialog) for the C6 counterexample. -/
def c6xA : AccessibilityNode :=
  { node := 1, role := "paragraph", spokenRole := "paragraph", accessibleName := "",
    accessibleDescription := "", accessibleValue := "", parentDialog := none,
    spokenPhrase := "q", itemText := "j" }

/-- The dialog node (identity 7) for the C6 counterexample. -/
def c6xDlg : AccessibilityNode :=
  { node := 7, role := "dialog", spokenRole := "dialog", accessibleName := "Confirm",
    accessibleDescription := "", accessibleValue := "", parentDialog := some 7,
    spokenPhrase := "DLG", itemText := "DI" }

/-- The focus target inside dialog 7, whose phrase/text equal the log
tails. -/
def c6xT : AccessibilityNode :=
  { node := 3, role := "button", spokenRole := "button", accessibleName := "p",
    accessibleDescription := "", accessibleValue := "", parentDialog := some 7,
    spokenPhrase := "p", itemText := "i" }

/-- Document for the C6 counterexample. -/
def c6xDoc : Doc := { tree := [c6xA, c6xDlg, c6xT], ariaModal := fun _ => false }

/-- Started engine whose log tails equal the focus target's phrase/text. -/
def c6xS : VirtualState :=
  { activeNode := some c6xA, container := some 0, itemTextLog := ["i"],
    spokenPhraseLog := ["p"] }

/-- C6 counterexample: the focused node `c6xT` is found in the tree and its
spoken phrase and item text equal the last entries of the two logs, yet the
focus handler appends entries — the dialog-transition block runs *before*
the unchanged-pair suppression and pushes the dialog pair (and, the filtered
tail now being the dialog phrase, the target pair as well). -/
theorem c6_counterexample :
    c6xDoc.tree.find? (fun nd => nd.node == 3) = some c6xT ∧
    atJS c6xS.spokenPhraseLog (-1) = some c6xT.spokenPhrase ∧
    atJS c6xS.itemTextLog (-1) = some c6xT.itemText ∧
    Virtual.handleFocusChange c6xDoc c6xS 3 =
      { activeNode := some c6xT, container := some 0,
        itemTextLog := ["i", "DI", "i"], spokenPhraseLog := ["p", "DLG", "p"] } ∧
    ¬ (Virtual.handleFocusChange c6xDoc c6xS 3).spokenPhraseLog =
      c6xS.spokenPhraseLog :=
  ⟨rfl, rfl, rfl, rfl, by decide⟩

/-! ## C3: N calls to `next()` -/

lemma stepNext_spec (doc : Doc) (T : List AccessibilityNode) (c : Nat)
    (hnd : (T.map nodeKey).Nodup)
    (hinv : ∀ n ∈ T, Virtual.scopeOf doc n = T)
    (s : VirtualState) (j : Nat) (hj : j < T.length)
    (hc : s.container = some c)
    (ha : s.activeNode = T.get? j) :
    (Virtual.stepNext doc s).container = some c ∧
    (Virtual.stepNext doc s).activeNode = T.get? ((j + 1) % T.length) := by
  have hjget : T.get? j = some (T.get ⟨j, hj⟩) := List.get?_eq_get hj
  have haT : s.activeNode = some (T.get ⟨j, hj⟩) := by rw [ha, hjget]
  have hmemT : T.get ⟨j, hj⟩ ∈ T := List.get_mem T j hj
  have hmodal : Virtual.getModalAccessibilityTree doc s = T := by
    simp only [Virtual.getModalAccessibilityTree, haT]
    exact hinv _ hmemT
  have hci : Virtual.getCurrentIndex s.activeNode T = (j : Int) := by
    rw [haT]
    exact getCurrentIndex_eq_of_nodup T _ hnd hjget
  have hTne : ¬ T.isEmpty = true := by
    rw [List.isEmpty_iff]
    intro h
    rw [h] at hj
    simp at hj
  have hlenpos : 0 < T.length := by omega
  have hni : (if (j : Int) = -1 ∨ (j : Int) = (T.length : Int) - 1 then (0 : Int)
      else (j : Int) + 1) = (((j + 1) % T.length : Nat) : Int) := by
    by_cases hlast : j = T.length - 1
    · have hcast : (j : Int) = (T.length : Int) - 1 := by
        subst hlast
        omega
      rw [if_pos (Or.inr hcast)]
      have hmod : (j + 1) % T.length = 0 := by
        have hsucc : j + 1 = T.length := by omega
        rw [hsucc, Nat.mod_self]
      rw [hmod]
      simp
    · have hng : ¬ ((j : Int) = -1 ∨ (j : Int) = (T.length : Int) - 1) := by
        rintro (h | h)
        · omega
        · exact hlast (by omega)
      rw [if_neg hng]
      have hmod : (j + 1) % T.length = j + 1 := Nat.mod_eq_of_lt (by omega)
      rw [hmod]
      push_cast
      ring
  have hk : (j + 1) % T.length < T.length := Nat.mod_lt _ hlenpos
  unfold Virtual.stepNext Virtual.next
  rw [hc]
  dsimp only
  rw [hmodal, if_neg hTne, hci, hni, atJS_natCast, List.get?_eq_get hk]
  dsimp only
  rw [updateState_container, updateState_activeNode, hc]
  exact ⟨rfl, rfl⟩

lemma c3_aux (doc : Doc) (T : List AccessibilityNode) (c : Nat)
    (hnd : (T.map nodeKey).Nodup)
    (hinv : ∀ n ∈ T, Virtual.scopeOf doc n = T) :
    ∀ (k : Nat) (s : VirtualState) (j : Nat), j < T.length →
      s.container = some c → s.activeNode = T.get? j →
      ((Virtual.stepNext doc)^[k] s).activeNode = T.get? ((j + k) % T.length) := by
  intro k
  induction k with
  | zero =>
    intro s j hj hc ha
    simpa [Nat.mod_eq_of_lt hj] using ha
  | succ k ih =>
    intro s j hj hc ha
    rw [Function.iterate_succ_apply]
    have hstep := stepNext_spec doc T c hnd hinv s j hj hc ha
    have hk : (j + 1) % T.length < T.length := Nat.mod_lt _ (by omega)
    have hiter := ih (Virtual.stepNext doc s) ((j + 1) % T.length) hk hstep.1 hstep.2
    rw [hiter]
    congr 1
    rw [Nat.mod_add_mod]
    congr 1
    omega

/-- C3 as amended: over a stable document, starting from an active node of
the modal-scoped sequence `T` whose entries have pairwise distinct identity
fields, and *provided the modal scope is invariant along the walk* (every
node of `T`, when active, yields `T` again as the modal-scoped sequence —
e.g. no entry of `T` sits inside an `aria-modal` dialog other than the one
defining the scope), calling `next()` exactly `T.length` times returns the
cursor to the starting node. -/
theorem c3_amended (doc : Doc) (s : VirtualState) (c : Nat) (a : AccessibilityNode)
    (hc : s.container = some c) (ha : s.activeNode = some a)
    (hmem : a ∈ Virtual.getModalAccessibilityTree doc s)
    (hnd : ((Virtual.getModalAccessibilityTree doc s).map nodeKey).Nodup)
    (hinv : ∀ n ∈ Virtual.getModalAccessibilityTree doc s,
      Virtual.scopeOf doc n = Virtual.getModalAccessibilityTree doc s) :
    ((Virtual.stepNext doc)^[(Virtual.getModalAccessibilityTree doc s).length]
      s).activeNode = some a := by
  set T := Virtual.getModalAccessibilityTree doc s with hT
  obtain ⟨⟨j, hj⟩, hja⟩ := List.mem_iff_get.mp hmem
  have hget : T.get? j = some a := by rw [List.get?_eq_get hj, hja]
  have hrun := c3_aux doc T c hnd hinv T.length s j hj hc (by rw [ha, hget])
  rw [hrun]
  have hmod : (j + T.length) % T.length = j := by
    rw [Nat.add_mod_right]
    exact Nat.mod_eq_of_lt hj
  rw [hmod, hget]

/-- Node outside any dialog for the C3 counterexample. -/
def c3n0 : AccessibilityNode :=
  { node := 1, role := "paragraph", spokenRole := "paragraph", accessibleName := "",
    accessibleDescription := "", accessibleValue := "", parentDialog := none,
    spokenPhrase := "P0", itemText := "I0" }

/-- The `aria-modal` dialog node (identity 7) for the C3 counterexample. -/
def c3dlg : AccessibilityNode :=
  { node := 7, role := "dialog", spokenRole := "dialog", accessibleName := "Confirm",
    accessibleDescription := "", accessibleValue := "", parentDialog := some 7,
    spokenPhrase := "DLG", itemText := "DI" }

/-- A node inside dialog 7 for the C3 counterexample. -/
def c3n1 : AccessibilityNode :=
  { node := 2, role := "button", spokenRole := "button", accessibleName := "Yes",
    accessibleDescription := "", accessibleValue := "", parentDialog := some 7,
    spokenPhrase := "P2", itemText := "I2" }

/-- Document containing an `aria-modal` dialog alongside an outside node. -/
def c3Doc : Doc := { tree := [c3n0, c3dlg, c3n1], ariaModal := fun d => d == 7 }

/-- Started engine positioned on the outside node `c3n0`. -/
def c3xS : VirtualState :=
  { activeNode := some c3n0, container := some 0, itemTextLog := ["I0"],
    spokenPhraseLog := ["P0"] }

/-- C3 counterexample: the modal-scoped sequence initially has length
`N = 3`, but walking `next()` into the `aria-modal` dialog shrinks the
modal scope to the dialog's contents mid-walk, so after `N = 3` calls the
cursor sits on the dialog node, not on the starting node. -/
theorem c3_counterexample :
    c3xS.container = some 0 ∧
    (Virtual.getModalAccessibilityTree c3Doc c3xS).length = 3 ∧
    ((Virtual.stepNext c3Doc)^[3] c3xS).activeNode = some c3dlg ∧
    ¬ ((Virtual.stepNext c3Doc)^[3] c3xS).activeNode = c3xS.activeNode :=
  ⟨rfl, rfl, by decide, by decide⟩

/-- First node of the dialog-free witness document for C3. -/
def c3wn0 : AccessibilityNode :=
  { node := 1, role := "heading", spokenRole := "heading", accessibleName := "Hi",
    accessibleDescription := "", accessibleValue := "", parentDialog := none,
    spokenPhrase := "heading, Hi", itemText := "Hi" }

/-- Second node of the dialog-free witness document for C3. -/
def c3wn1 : AccessibilityNode :=
  { node := 2, role := "paragraph", spokenRole := "paragraph", accessibleName := "",
    accessibleDescription := "", accessibleValue := "", parentDialog := none,
    spokenPhrase := "Text", itemText := "Text" }

/-- Dialog-free two-node document for the C3 witness. -/
def c3wDoc : Doc := { tree := [c3wn0, c3wn1], ariaModal := fun _ => false }

/-- Started engine on the first node of the witness document. -/
def c3wS : VirtualState :=
  { activeNode := some c3wn0, container := some 0, itemTextLog := ["Hi"],
    spokenPhraseLog := ["heading, Hi"] }

/-- Witness for the amended C3: two `next()` calls on the two-node
dialog-free document return the cursor to the first node. -/
theorem c3_witness :
    ((Virtual.stepNext c3wDoc)^[(Virtual.getModalAccessibilityTree c3wDoc c3wS).length]
      c3wS).activeNode = some c3wn0 :=
  c3_amended c3wDoc c3wS 0 c3wn0 rfl rfl (by decide) (by decide) (by decide)
